import Mathlib

/-!
Verification development for the psh push-notification server.

The definitions below are a shallow embedding of the Rust sources:
the payload builder and transport-option builder of
`server/src/apns.rs`, the broadcast dispatch loop of
`server/src/main.rs` (`send_notification`), and the sound-argument
builder of the command line client `psh-cli/src/main.rs`
(`SendArgs::into_request`).

JSON values are modelled as a tree; serde serialization of the Rust
structs is modelled as a function into that tree, respecting field
order, kebab-case renaming and `skip_serializing_if` attributes.
Rust `f64` values only pass through the code unchanged, so they are
represented as rationals; machine integers (`u8`, `u32`, `u64`,
`usize`) never overflow in the modelled code and are represented as
naturals.
-/

/-- JSON-like values (serde_json::Value). Objects keep their field
order, so serde field ordering is observable in the model. -/
inductive Json where
  | null : Json
  | bool : Bool → Json
  | num : Rat → Json
  | str : String → Json
  | arr : List Json → Json
  | obj : List (String × Json) → Json

/-- Top-level entries of a JSON object (empty for non-objects). -/
def Json.topEntries : Json → List (String × Json)
  | .obj entries => entries
  | _ => []

/-- Assoc-list lookup used to observe serialized objects: first entry
with the given key wins, as for a JSON parser reading duplicate keys. -/
def entriesLookup (k : String) : List (String × Json) → Option Json
  | [] => none
  | (k2, v) :: rest => if k2 = k then some v else entriesLookup k rest

/-- Lookup of a key in a JSON object (none for non-objects). -/
def jsonLookup (k : String) (j : Json) : Option Json :=
  entriesLookup k j.topEntries

/-- Serialization of one optional struct field: absent fields produce
no entry at all (serde skip_serializing_if Option::is_none). -/
def optEntry (k : String) (v : Option Json) : List (String × Json) :=
  match v with
  | none => []
  | some j => [(k, j)]

/-- Environment enum of server/src/main.rs. -/
inductive Environment where
  | sandbox : Environment
  | production : Environment
deriving DecidableEq

/-- Environment::as_str of server/src/main.rs. -/
def Environment.as_str : Environment → String
  | .sandbox => "sandbox"
  | .production => "production"

/-- TryFrom for Environment of server/src/main.rs (lines 50-60). -/
def Environment.try_from (s : String) : Except String Environment :=
  if s = "sandbox" then .ok .sandbox
  else if s = "production" then .ok .production
  else .error "invalid environment"

/-- SoundConfig of server/src/main.rs: untagged enum, either a bare
sound name or a critical-sound object with optional flag and volume. -/
inductive SoundConfig where
  | Simple : String → SoundConfig
  | Critical : (name : String) → (critical : Option Bool) → (volume : Option Rat) → SoundConfig

/-- SendRequest of server/src/main.rs: the inbound notification intent. -/
structure SendRequest where
  title : Option String
  subtitle : Option String
  body : Option String
  launch_image : Option String
  title_loc_key : Option String
  title_loc_args : Option (List String)
  loc_key : Option String
  loc_args : Option (List String)
  badge : Option Nat
  sound : Option SoundConfig
  content_available : Option Bool
  mutable_content : Option Bool
  category : Option String
  interruption_level : Option String
  relevance_score : Option Rat
  priority : Option Nat
  collapse_id : Option String
  expiration : Option Nat
  data : Option (List (String × Json))

/-- CustomAlert of server/src/apns.rs. -/
structure CustomAlert where
  title : Option String
  subtitle : Option String
  body : Option String
  launch_image : Option String
  title_loc_key : Option String
  title_loc_args : Option (List String)
  loc_key : Option String
  loc_args : Option (List String)

/-- CustomSound of server/src/apns.rs: untagged, a bare string or a
critical object whose critical flag is a u8. -/
inductive CustomSound where
  | Simple : String → CustomSound
  | Critical : (critical : Nat) → (name : String) → (volume : Option Rat) → CustomSound

/-- CustomAps of server/src/apns.rs. -/
structure CustomAps where
  alert : Option CustomAlert
  badge : Option Nat
  sound : Option CustomSound
  content_available : Option Nat
  mutable_content : Option Nat
  category : Option String
  interruption_level : Option String
  relevance_score : Option Rat

/-- Serde serialization of CustomAlert: kebab-case keys in field
order, None fields skipped. -/
def CustomAlert.toJson (a : CustomAlert) : Json :=
  .obj (optEntry "title" (a.title.map .str) ++
    optEntry "subtitle" (a.subtitle.map .str) ++
    optEntry "body" (a.body.map .str) ++
    optEntry "launch-image" (a.launch_image.map .str) ++
    optEntry "title-loc-key" (a.title_loc_key.map .str) ++
    optEntry "title-loc-args" (a.title_loc_args.map (fun xs => .arr (xs.map .str))) ++
    optEntry "loc-key" (a.loc_key.map .str) ++
    optEntry "loc-args" (a.loc_args.map (fun xs => .arr (xs.map .str))))

/-- Serde serialization of CustomSound: the untagged Simple variant is
the bare name string, the Critical variant an object with the critical
flag, the name and, when present, the volume. -/
def CustomSound.toJson : CustomSound → Json
  | .Simple name => .str name
  | .Critical critical name volume =>
    .obj ([("critical", .num critical)] ++ [("name", .str name)] ++
      optEntry "volume" (volume.map .num))

/-- Serde serialization of CustomAps: kebab-case keys in field order,
None fields skipped. -/
def CustomAps.toJson (a : CustomAps) : Json :=
  .obj (optEntry "alert" (a.alert.map CustomAlert.toJson) ++
    optEntry "badge" (a.badge.map (fun b => .num b)) ++
    optEntry "sound" (a.sound.map CustomSound.toJson) ++
    optEntry "content-available" (a.content_available.map (fun n => .num n)) ++
    optEntry "mutable-content" (a.mutable_content.map (fun n => .num n)) ++
    optEntry "category" (a.category.map .str) ++
    optEntry "interruption-level" (a.interruption_level.map .str) ++
    optEntry "relevance-score" (a.relevance_score.map .num))

/-- build_alert of server/src/apns.rs (lines 88-110). -/
def build_alert (req : SendRequest) : Option CustomAlert :=
  let has_alert := req.title.isSome || req.subtitle.isSome || req.body.isSome ||
    req.launch_image.isSome || req.title_loc_key.isSome || req.loc_key.isSome
  if !has_alert then none
  else
    some { title := req.title
           subtitle := req.subtitle
           body := req.body
           launch_image := req.launch_image
           title_loc_key := req.title_loc_key
           title_loc_args := req.title_loc_args
           loc_key := req.loc_key
           loc_args := req.loc_args }

/-- build_sound of server/src/apns.rs (lines 112-131). -/
def build_sound (sound : SoundConfig) : CustomSound :=
  match sound with
  | .Simple name => .Simple name
  | .Critical name critical volume =>
    if critical = some true then .Critical 1 name volume
    else .Simple name

/-- build_custom_aps of server/src/apns.rs (lines 133-144). -/
def build_custom_aps (req : SendRequest) : CustomAps :=
  { alert := build_alert req,
    badge := req.badge,
    sound := req.sound.map build_sound,
    content_available := if req.content_available = some true then some 1 else none,
    mutable_content := if req.mutable_content = some true then some 1 else none,
    category := req.category,
    interruption_level := req.interruption_level,
    relevance_score := req.relevance_score }

namespace Cli

/-- SoundConfig of psh-cli/src/main.rs: as the server one, but the
critical flag is a plain bool. -/
inductive SoundConfig where
  | Simple : String → SoundConfig
  | Critical : (name : String) → (critical : Bool) → (volume : Option Rat) → SoundConfig

/-- Sound construction step of SendArgs::into_request in
psh-cli/src/main.rs (lines 271-279): with the critical flag, a missing
sound name defaults to the literal string "default". -/
def build_sound_arg (sound : Option String) (sound_critical : Bool)
    (sound_name : Option String) (sound_volume : Option Rat) : Option SoundConfig :=
  if sound_critical then
    some (.Critical (sound_name.getD "default") true sound_volume)
  else
    sound.map .Simple

end Cli

/-- Delivery priority of the a2 transport crate. -/
inductive Priority where
  | normal : Priority
  | high : Priority
deriving DecidableEq

/-- Push type of the a2 transport crate. -/
inductive PushType where
  | alert : PushType
  | background : PushType
deriving DecidableEq

/-- NotificationOptions of the a2 transport crate: the per-send
transport-level metadata set by ApnsClients::send_notification. -/
structure NotificationOptions where
  apns_topic : Option String
  apns_priority : Option Priority
  apns_collapse_id : Option String
  apns_expiration : Option Nat
  apns_push_type : Option PushType
deriving DecidableEq

/-- CollapseId::new of the a2 crate: accepts the value when its UTF-8
byte length is at most 64, rejects it otherwise. -/
def collapseIdNew (s : String) : Except String String :=
  if s.utf8ByteSize ≤ 64 then .ok s else .error "collapse id too long"

/-- Transport-option construction of ApnsClients::send_notification in
server/src/apns.rs (lines 189-215): topic always set, priority 1-5
mapped to normal and anything else to high, an invalid collapse id
dropped silently, and the push type always set from content_available. -/
def apnsOptions (topic : String) (req : SendRequest) : NotificationOptions :=
  let options : NotificationOptions :=
    { apns_topic := some topic, apns_priority := none, apns_collapse_id := none,
      apns_expiration := none, apns_push_type := none }
  let options := match req.priority with
    | some priority =>
      { options with apns_priority := some (if 1 ≤ priority ∧ priority ≤ 5 then Priority.normal else Priority.high) }
    | none => options
  let options := match req.collapse_id with
    | some cid =>
      match collapseIdNew cid with
      | .ok c => { options with apns_collapse_id := some c }
      | .error _ => options
    | none => options
  let options := match req.expiration with
    | some e => { options with apns_expiration := some e }
    | none => options
  if req.content_available = some true then
    { options with apns_push_type := some .background }
  else
    { options with apns_push_type := some .alert }

/-- Lexicographic comparison of character lists by code point; agrees
with the byte-wise ordering Rust uses for BTreeMap string keys. -/
def charListLt : List Char → List Char → Bool
  | [], [] => false
  | [], _ :: _ => true
  | _ :: _, [] => false
  | c1 :: r1, c2 :: r2 =>
    if c1.toNat < c2.toNat then true
    else if c2.toNat < c1.toNat then false
    else charListLt r1 r2

/-- Strict ordering of strings, as the BTreeMap key order. -/
def strLt (a b : String) : Bool := charListLt a.toList b.toList

/-- Insertion into a key-sorted assoc list: models BTreeMap insert. -/
def btreeInsert (k : String) (v : Json) : List (String × Json) → List (String × Json)
  | [] => [(k, v)]
  | (k2, v2) :: rest =>
    if strLt k k2 then (k, v) :: (k2, v2) :: rest
    else if k = k2 then (k, v) :: rest
    else (k2, v2) :: btreeInsert k v rest

/-- Collecting key-value pairs into a BTreeMap, as the data map of
ApnsClients::send_notification (server/src/apns.rs lines 217-221). -/
def btreeOfList (l : List (String × Json)) : List (String × Json) :=
  l.foldl (fun acc kv => btreeInsert kv.1 kv.2 acc) []

/-- Serde serialization of CustomPayload (server/src/apns.rs lines
13-22): the aps envelope field first, then the flattened custom-data
map beside it; device_token and options are serde-skipped. -/
def customPayloadJson (req : SendRequest) : Json :=
  .obj (("aps", (build_custom_aps req).toJson) :: btreeOfList (req.data.getD []))

/-- DeviceSendResult of server/src/main.rs: the per-device dispatch
result returned to the caller. -/
structure DeviceSendResult where
  device_token : String
  success : Bool
  apns_id : Option String
  error : Option String
deriving DecidableEq

/-- SendResponse of server/src/main.rs: the aggregate broadcast
outcome. -/
structure SendResponse where
  success : Bool
  sent : Nat
  failed : Nat
  results : List DeviceSendResult
deriving DecidableEq

/-- One row requested to be inserted into the pushes table by
send_notification (server/src/main.rs lines 357-369). The payload
column holds the serialized custom-data; it is modelled as the JSON
tree rather than its rendered string. -/
structure HistoryRecord where
  device_token : String
  apns_id : String
  title : Option String
  body : Option String
  payload : Option Json

/-- Batch-level failures of the broadcast call. The storage failure of
the device enumeration happens before the modelled code runs, so only
the no-recipients case appears here. -/
inductive BroadcastError where
  | noRecipients : BroadcastError
deriving DecidableEq

/-- The payload_json binding of send_notification (main.rs line 326):
serde_json::to_string of the optional custom-data map never fails, and
an absent map serializes as JSON null. -/
def payload_json (req : SendRequest) : Option Json :=
  some (match req.data with
    | none => Json.null
    | some d => Json.obj d)

/-- The mutable state of the device loop in send_notification:
results, sent, failed and the history rows requested so far. -/
structure LoopState where
  results : List DeviceSendResult
  sent : Nat
  failed : Nat
  history : List HistoryRecord

/-- One iteration of the device loop of send_notification
(server/src/main.rs lines 332-390). The transport argument models
ApnsClients::send_notification for this broadcast; hist_db models the
pushes-table insert, whose outcome the code discards (the Rust binds
it to an underscore), so it is evaluated and dropped here too. -/
def dispatchStep (transport : String → Environment → Except String String)
    (hist_db : HistoryRecord → Except String Unit) (req : SendRequest)
    (st : LoopState) (dev : String × String) : LoopState :=
  match Environment.try_from dev.2 with
  | .error _ =>
    { st with
      results := st.results ++ [{ device_token := dev.1, success := false, apns_id := none, error := some "Invalid environment in database" }]
      failed := st.failed + 1 }
  | .ok environment =>
    match transport dev.1 environment with
    | .ok apns_id =>
      let record : HistoryRecord := { device_token := dev.1, apns_id := apns_id, title := req.title, body := req.body, payload := payload_json req }
      let _ := hist_db record
      { st with
        results := st.results ++ [{ device_token := dev.1, success := true, apns_id := some apns_id, error := none }]
        sent := st.sent + 1
        history := st.history ++ [record] }
    | .error e =>
      { st with
        results := st.results ++ [{ device_token := dev.1, success := false, apns_id := none, error := some e }]
        failed := st.failed + 1 }

/-- The broadcast core of send_notification (server/src/main.rs lines
312-399), starting after the device enumeration: fail fast with no
recipients on an empty device list, otherwise run the loop over every
device and return the aggregate response together with the history
rows requested. -/
def broadcast (transport : String → Environment → Except String String)
    (hist_db : HistoryRecord → Except String Unit) (req : SendRequest)
    (devices : List (String × String)) :
    Except BroadcastError (SendResponse × List HistoryRecord) :=
  if devices.isEmpty then
    .error .noRecipients
  else
    let st := devices.foldl (dispatchStep transport hist_db req)
      { results := [], sent := 0, failed := 0, history := [] }
    .ok ({ success := decide (0 < st.sent), sent := st.sent, failed := st.failed, results := st.results }, st.history)

/-- Whether the dispatch of one enumerated device succeeds: its stored
environment tag resolves and the transport send returns ok. -/
def dispatchOk (transport : String → Environment → Except String String)
    (dev : String × String) : Bool :=
  match Environment.try_from dev.2 with
  | .ok environment =>
    match transport dev.1 environment with
    | .ok _ => true
    | .error _ => false
  | .error _ => false

/-- The DeviceSendResult produced for one enumerated device. -/
def dispatchResultOf (transport : String → Environment → Except String String)
    (dev : String × String) : DeviceSendResult :=
  match Environment.try_from dev.2 with
  | .error _ =>
    { device_token := dev.1, success := false, apns_id := none, error := some "Invalid environment in database" }
  | .ok environment =>
    match transport dev.1 environment with
    | .ok apns_id =>
      { device_token := dev.1, success := true, apns_id := some apns_id, error := none }
    | .error e =>
      { device_token := dev.1, success := false, apns_id := none, error := some e }

/-- The history row requested for one enumerated device, if any. -/
def historyOf (transport : String → Environment → Except String String)
    (req : SendRequest) (dev : String × String) : Option HistoryRecord :=
  match Environment.try_from dev.2 with
  | .error _ => none
  | .ok environment =>
    match transport dev.1 environment with
    | .ok apns_id =>
      some { device_token := dev.1, apns_id := apns_id, title := req.title, body := req.body, payload := payload_json req }
    | .error _ => none

theorem entriesLookup_append (k : String) (l1 l2 : List (String × Json)) :
    entriesLookup k (l1 ++ l2) =
      ((entriesLookup k l1).orElse fun _ => entriesLookup k l2) := by
  induction l1 with
  | nil => simp [entriesLookup, Option.orElse]
  | cons kv rest ih =>
    obtain ⟨k2, v⟩ := kv
    by_cases h : k2 = k <;> simp [entriesLookup, h, ih, Option.orElse]

theorem entriesLookup_optEntry_self (k : String) (v : Option Json) :
    entriesLookup k (optEntry k v) = v := by
  cases v <;> simp [optEntry, entriesLookup]

theorem entriesLookup_optEntry_ne (k2 k : String) (v : Option Json) (h : k2 ≠ k) :
    entriesLookup k (optEntry k2 v) = none := by
  cases v <;> simp [optEntry, entriesLookup, h]

theorem build_alert_isSome (req : SendRequest) :
    (build_alert req).isSome = (req.title.isSome || req.subtitle.isSome ||
      req.body.isSome || req.launch_image.isSome || req.title_loc_key.isSome ||
      req.loc_key.isSome) := by
  cases h : (req.title.isSome || req.subtitle.isSome || req.body.isSome ||
      req.launch_image.isSome || req.title_loc_key.isSome || req.loc_key.isSome) <;>
    simp [build_alert, h]

theorem apsLookup_alert (req : SendRequest) :
    jsonLookup "alert" (build_custom_aps req).toJson =
      (build_alert req).map CustomAlert.toJson := by
  cases h : build_alert req <;>
    simp [jsonLookup, build_custom_aps, CustomAps.toJson, Json.topEntries, h,
      entriesLookup_append, entriesLookup_optEntry_self, entriesLookup_optEntry_ne,
      Option.orElse]

theorem apsLookup_badge (req : SendRequest) :
    jsonLookup "badge" (build_custom_aps req).toJson =
      req.badge.map (fun b => Json.num b) := by
  cases h : req.badge <;>
    simp [jsonLookup, build_custom_aps, CustomAps.toJson, Json.topEntries, h,
      entriesLookup_append, entriesLookup_optEntry_self, entriesLookup_optEntry_ne,
      Option.orElse]

theorem apsLookup_sound (req : SendRequest) :
    jsonLookup "sound" (build_custom_aps req).toJson =
      req.sound.map (fun s => (build_sound s).toJson) := by
  cases h : req.sound <;>
    simp [jsonLookup, build_custom_aps, CustomAps.toJson, Json.topEntries, h,
      entriesLookup_append, entriesLookup_optEntry_self, entriesLookup_optEntry_ne,
      Option.orElse]

theorem apsLookup_content_available (req : SendRequest) :
    jsonLookup "content-available" (build_custom_aps req).toJson =
      (if req.content_available = some true then some (Json.num 1) else none) := by
  by_cases h : req.content_available = some true <;>
    simp [jsonLookup, build_custom_aps, CustomAps.toJson, Json.topEntries, h,
      entriesLookup_append, entriesLookup_optEntry_self, entriesLookup_optEntry_ne,
      Option.orElse]

theorem apsLookup_mutable_content (req : SendRequest) :
    jsonLookup "mutable-content" (build_custom_aps req).toJson =
      (if req.mutable_content = some true then some (Json.num 1) else none) := by
  by_cases h : req.mutable_content = some true <;>
    simp [jsonLookup, build_custom_aps, CustomAps.toJson, Json.topEntries, h,
      entriesLookup_append, entriesLookup_optEntry_self, entriesLookup_optEntry_ne,
      Option.orElse]

theorem apsLookup_category (req : SendRequest) :
    jsonLookup "category" (build_custom_aps req).toJson =
      req.category.map Json.str := by
  cases h : req.category <;>
    simp [jsonLookup, build_custom_aps, CustomAps.toJson, Json.topEntries, h,
      entriesLookup_append, entriesLookup_optEntry_self, entriesLookup_optEntry_ne,
      Option.orElse]

theorem apsLookup_interruption_level (req : SendRequest) :
    jsonLookup "interruption-level" (build_custom_aps req).toJson =
      req.interruption_level.map Json.str := by
  cases h : req.interruption_level <;>
    simp [jsonLookup, build_custom_aps, CustomAps.toJson, Json.topEntries, h,
      entriesLookup_append, entriesLookup_optEntry_self, entriesLookup_optEntry_ne,
      Option.orElse]

theorem apsLookup_relevance_score (req : SendRequest) :
    jsonLookup "relevance-score" (build_custom_aps req).toJson =
      req.relevance_score.map Json.num := by
  cases h : req.relevance_score <;>
    simp [jsonLookup, build_custom_aps, CustomAps.toJson, Json.topEntries, h,
      entriesLookup_append, entriesLookup_optEntry_self, entriesLookup_optEntry_ne,
      Option.orElse]

theorem alertLookup_title (a : CustomAlert) :
    jsonLookup "title" a.toJson = a.title.map Json.str := by
  cases h : a.title <;>
    simp [jsonLookup, CustomAlert.toJson, Json.topEntries, h,
      entriesLookup_append, entriesLookup_optEntry_self, entriesLookup_optEntry_ne,
      Option.orElse]

theorem alertLookup_subtitle (a : CustomAlert) :
    jsonLookup "subtitle" a.toJson = a.subtitle.map Json.str := by
  cases h : a.subtitle <;>
    simp [jsonLookup, CustomAlert.toJson, Json.topEntries, h,
      entriesLookup_append, entriesLookup_optEntry_self, entriesLookup_optEntry_ne,
      Option.orElse]

theorem alertLookup_body (a : CustomAlert) :
    jsonLookup "body" a.toJson = a.body.map Json.str := by
  cases h : a.body <;>
    simp [jsonLookup, CustomAlert.toJson, Json.topEntries, h,
      entriesLookup_append, entriesLookup_optEntry_self, entriesLookup_optEntry_ne,
      Option.orElse]

theorem alertLookup_launch_image (a : CustomAlert) :
    jsonLookup "launch-image" a.toJson = a.launch_image.map Json.str := by
  cases h : a.launch_image <;>
    simp [jsonLookup, CustomAlert.toJson, Json.topEntries, h,
      entriesLookup_append, entriesLookup_optEntry_self, entriesLookup_optEntry_ne,
      Option.orElse]

theorem alertLookup_title_loc_key (a : CustomAlert) :
    jsonLookup "title-loc-key" a.toJson = a.title_loc_key.map Json.str := by
  cases h : a.title_loc_key <;>
    simp [jsonLookup, CustomAlert.toJson, Json.topEntries, h,
      entriesLookup_append, entriesLookup_optEntry_self, entriesLookup_optEntry_ne,
      Option.orElse]

theorem alertLookup_title_loc_args (a : CustomAlert) :
    jsonLookup "title-loc-args" a.toJson = a.title_loc_args.map (fun xs => Json.arr (xs.map Json.str)) := by
  cases h : a.title_loc_args <;>
    simp [jsonLookup, CustomAlert.toJson, Json.topEntries, h,
      entriesLookup_append, entriesLookup_optEntry_self, entriesLookup_optEntry_ne,
      Option.orElse]

theorem alertLookup_loc_key (a : CustomAlert) :
    jsonLookup "loc-key" a.toJson = a.loc_key.map Json.str := by
  cases h : a.loc_key <;>
    simp [jsonLookup, CustomAlert.toJson, Json.topEntries, h,
      entriesLookup_append, entriesLookup_optEntry_self, entriesLookup_optEntry_ne,
      Option.orElse]

theorem alertLookup_loc_args (a : CustomAlert) :
    jsonLookup "loc-args" a.toJson = a.loc_args.map (fun xs => Json.arr (xs.map Json.str)) := by
  cases h : a.loc_args <;>
    simp [jsonLookup, CustomAlert.toJson, Json.topEntries, h,
      entriesLookup_append, entriesLookup_optEntry_self, entriesLookup_optEntry_ne,
      Option.orElse]

theorem apnsOptions_priority (topic : String) (req : SendRequest) :
    (apnsOptions topic req).apns_priority =
      req.priority.map (fun p => if 1 ≤ p ∧ p ≤ 5 then Priority.normal else Priority.high) := by
  unfold apnsOptions
  cases req.priority <;> cases req.collapse_id <;> cases req.expiration <;>
    by_cases h : req.content_available = some true <;>
      first
      | (simp [h, collapseIdNew] <;> split <;> rfl)
      | simp [h, collapseIdNew]

/-- C10: the push-type transport metadata is always set; it is
background exactly when content_available is explicitly true, and
alert in every other case. -/
theorem push_type_always_set (topic : String) (req : SendRequest) :
    (apnsOptions topic req).apns_push_type =
      some (if req.content_available = some true then PushType.background
            else PushType.alert) := by
  unfold apnsOptions
  cases req.priority <;> cases req.collapse_id <;> cases req.expiration <;>
    by_cases h : req.content_available = some true <;>
      first
      | (simp [h, collapseIdNew] <;> split <;> rfl)
      | simp [h, collapseIdNew]

/-- C2: the sound section of the payload: a Simple sound serializes as
the bare name; a Critical sound with critical flag true serializes as
an object marking criticality with the name and, when present, the
volume; a Critical sound whose flag is explicitly false degrades to a
Simple sound; and on the command line client a critical sound with no
explicit name gets the literal name "default". -/
theorem sound_section_serialization (name : String) (volume : Option Rat) (v : Rat) :
    (build_sound (SoundConfig.Simple name)).toJson = Json.str name ∧
    (build_sound (SoundConfig.Critical name (some true) (some v))).toJson =
      Json.obj [("critical", Json.num 1), ("name", Json.str name), ("volume", Json.num v)] ∧
    (build_sound (SoundConfig.Critical name (some true) none)).toJson =
      Json.obj [("critical", Json.num 1), ("name", Json.str name)] ∧
    build_sound (SoundConfig.Critical name (some false) volume) = CustomSound.Simple name ∧
    Cli.build_sound_arg none true none volume =
      some (Cli.SoundConfig.Critical "default" true volume) := by
  refine ⟨rfl, ?_, ?_, rfl, rfl⟩ <;>
    simp [build_sound, CustomSound.toJson, optEntry]

/-- C4: the built payload contains an alert section exactly when at
least one of title, subtitle, body, launch_image, title_loc_key,
loc_key is present; with none of them present the alert section is
entirely absent, even when title_loc_args or loc_args are present. -/
theorem alert_section_iff (req : SendRequest) :
    (jsonLookup "alert" (build_custom_aps req).toJson).isSome =
      (req.title.isSome || req.subtitle.isSome || req.body.isSome ||
       req.launch_image.isSome || req.title_loc_key.isSome || req.loc_key.isSome) := by
  rw [apsLookup_alert, ← build_alert_isSome]
  cases build_alert req <;> simp

/-- C5: every optional field absent from the intent is omitted from
the serialized payload rather than emitted as null, and the boolean
flags content_available and mutable_content serialize as the integer 1
exactly when explicitly true and are omitted otherwise. -/
theorem optional_fields_omitted (req : SendRequest) (a : CustomAlert) :
    jsonLookup "alert" (build_custom_aps req).toJson =
      (build_alert req).map CustomAlert.toJson ∧
    jsonLookup "badge" (build_custom_aps req).toJson =
      req.badge.map (fun b => Json.num b) ∧
    jsonLookup "sound" (build_custom_aps req).toJson =
      req.sound.map (fun s => (build_sound s).toJson) ∧
    jsonLookup "content-available" (build_custom_aps req).toJson =
      (if req.content_available = some true then some (Json.num 1) else none) ∧
    jsonLookup "mutable-content" (build_custom_aps req).toJson =
      (if req.mutable_content = some true then some (Json.num 1) else none) ∧
    jsonLookup "category" (build_custom_aps req).toJson = req.category.map Json.str ∧
    jsonLookup "interruption-level" (build_custom_aps req).toJson =
      req.interruption_level.map Json.str ∧
    jsonLookup "relevance-score" (build_custom_aps req).toJson =
      req.relevance_score.map Json.num ∧
    jsonLookup "title" a.toJson = a.title.map Json.str ∧
    jsonLookup "subtitle" a.toJson = a.subtitle.map Json.str ∧
    jsonLookup "body" a.toJson = a.body.map Json.str ∧
    jsonLookup "launch-image" a.toJson = a.launch_image.map Json.str ∧
    jsonLookup "title-loc-key" a.toJson = a.title_loc_key.map Json.str ∧
    jsonLookup "loc-key" a.toJson = a.loc_key.map Json.str ∧
    jsonLookup "title-loc-args" a.toJson = a.title_loc_args.map (fun xs => Json.arr (xs.map Json.str)) ∧
    jsonLookup "loc-args" a.toJson = a.loc_args.map (fun xs => Json.arr (xs.map Json.str)) :=
  ⟨apsLookup_alert req, apsLookup_badge req, apsLookup_sound req,
    apsLookup_content_available req, apsLookup_mutable_content req,
    apsLookup_category req, apsLookup_interruption_level req,
    apsLookup_relevance_score req, alertLookup_title a, alertLookup_subtitle a,
    alertLookup_body a, alertLookup_launch_image a, alertLookup_title_loc_key a,
    alertLookup_loc_key a, alertLookup_title_loc_args a, alertLookup_loc_args a⟩

/-- C9: when the intent provides a priority value p, the delivery
priority metadata is normal when 1 <= p <= 5 and high for any value
greater than 5, including values outside the declared 1-10 range. -/
theorem priority_metadata_mapping (topic : String) (req : SendRequest) (p : Nat)
    (hp : req.priority = some p) :
    (1 ≤ p → p ≤ 5 → (apnsOptions topic req).apns_priority = some Priority.normal) ∧
    (5 < p → (apnsOptions topic req).apns_priority = some Priority.high) := by
  rw [apnsOptions_priority, hp]
  constructor
  · intro h1 h5
    simp [h1, h5]
  · intro h5
    simp [Nat.not_le_of_lt h5]

/-- C6: with an empty enumerated device list the broadcast fails with
no recipients; the loop never runs, so no transport call and no
history write is issued. -/
theorem broadcast_empty_no_recipients
    (transport : String → Environment → Except String String)
    (hist_db : HistoryRecord → Except String Unit) (req : SendRequest) :
    broadcast transport hist_db req [] = .error .noRecipients := rfl

theorem foldl_dispatchStep (transport : String → Environment → Except String String)
    (hist_db : HistoryRecord → Except String Unit) (req : SendRequest)
    (devices : List (String × String)) :
    ∀ st : LoopState,
      devices.foldl (dispatchStep transport hist_db req) st =
        { results := st.results ++ devices.map (dispatchResultOf transport),
          sent := st.sent + devices.countP (dispatchOk transport),
          failed := st.failed + devices.countP (fun d => !dispatchOk transport d),
          history := st.history ++ devices.filterMap (historyOf transport req) } := by
  induction devices with
  | nil => intro st; cases st; simp
  | cons d ds ih =>
    intro st
    rw [List.foldl_cons, ih]
    cases h1 : Environment.try_from d.2 with
    | error e =>
      simp [dispatchStep, dispatchResultOf, dispatchOk, historyOf, h1,
        List.countP_cons, List.filterMap_cons, LoopState.mk.injEq] <;> omega
    | ok env =>
      cases h2 : transport d.1 env with
      | ok apns_id =>
        simp [dispatchStep, dispatchResultOf, dispatchOk, historyOf, h1, h2,
          List.countP_cons, List.filterMap_cons, LoopState.mk.injEq] <;> omega
      | error e =>
        simp [dispatchStep, dispatchResultOf, dispatchOk, historyOf, h1, h2,
          List.countP_cons, List.filterMap_cons, LoopState.mk.injEq] <;> omega

theorem broadcast_ok (transport : String → Environment → Except String String)
    (hist_db : HistoryRecord → Except String Unit) (req : SendRequest)
    (devices : List (String × String)) (hne : devices ≠ []) :
    broadcast transport hist_db req devices =
      .ok ({ success := decide (0 < devices.countP (dispatchOk transport)),
             sent := devices.countP (dispatchOk transport),
             failed := devices.countP (fun d => !dispatchOk transport d),
             results := devices.map (dispatchResultOf transport) },
           devices.filterMap (historyOf transport req)) := by
  unfold broadcast
  rw [if_neg (by simp [hne]), foldl_dispatchStep]
  simp

theorem length_filterMap_historyOf (transport : String → Environment → Except String String)
    (req : SendRequest) (devices : List (String × String)) :
    (devices.filterMap (historyOf transport req)).length =
      devices.countP (dispatchOk transport) := by
  induction devices with
  | nil => rfl
  | cons d ds ih =>
    cases h1 : Environment.try_from d.2 with
    | error e =>
      simp [List.filterMap_cons, List.countP_cons, historyOf, dispatchOk, h1, ih]
    | ok env =>
      cases h2 : transport d.1 env <;>
        simp [List.filterMap_cons, List.countP_cons, historyOf, dispatchOk, h1, h2, ih]

theorem dispatchResultOf_token (transport : String → Environment → Except String String)
    (d : String × String) :
    (dispatchResultOf transport d).device_token = d.1 := by
  cases h1 : Environment.try_from d.2 with
  | error e => simp [dispatchResultOf, h1]
  | ok env => cases h2 : transport d.1 env <;> simp [dispatchResultOf, h1, h2]

theorem historyOf_matches (transport : String → Environment → Except String String)
    (req : SendRequest) (devices : List (String × String)) :
    (devices.filterMap (historyOf transport req)).map
        (fun h => (h.device_token, some h.apns_id)) =
      ((devices.map (dispatchResultOf transport)).filter (fun r => r.success)).map
        (fun r => (r.device_token, r.apns_id)) := by
  induction devices with
  | nil => rfl
  | cons d ds ih =>
    cases h1 : Environment.try_from d.2 with
    | error e =>
      simp [List.filterMap_cons, List.filter_cons, historyOf, dispatchResultOf, h1, ih]
    | ok env =>
      cases h2 : transport d.1 env <;>
        simp [List.filterMap_cons, List.filter_cons, historyOf, dispatchResultOf, h1, h2, ih]

theorem historyOf_fields (transport : String → Environment → Except String String)
    (req : SendRequest) (d : String × String) (h : HistoryRecord)
    (hh : historyOf transport req d = some h) :
    h.title = req.title ∧ h.body = req.body ∧ h.payload = payload_json req := by
  cases h1 : Environment.try_from d.2 with
  | error e => simp [historyOf, h1] at hh
  | ok env =>
    cases h2 : transport d.1 env with
    | ok apns_id =>
      simp [historyOf, h1, h2] at hh
      subst hh
      exact ⟨rfl, rfl, rfl⟩
    | error e => simp [historyOf, h1, h2] at hh

/-- C1: over a non-empty enumerated device list the broadcast returns
sent equal to the number of devices whose dispatch succeeded, failed
equal to the number whose send or environment resolution failed, one
result per enumerated device in enumeration order, an overall success
flag equal to sent being positive, and exactly one history write
requested per successful send. -/
theorem broadcast_outcome_counts (transport : String → Environment → Except String String)
    (hist_db : HistoryRecord → Except String Unit) (req : SendRequest)
    (devices : List (String × String)) (resp : SendResponse) (hist : List HistoryRecord)
    (hne : devices ≠ [])
    (hr : broadcast transport hist_db req devices = .ok (resp, hist)) :
    resp.sent = devices.countP (dispatchOk transport) ∧
    resp.failed = devices.countP (fun d => !dispatchOk transport d) ∧
    resp.results.length = devices.length ∧
    resp.results.map (fun r => r.device_token) = devices.map (fun d => d.1) ∧
    resp.success = decide (0 < resp.sent) ∧
    hist.length = resp.sent := by
  rw [broadcast_ok transport hist_db req devices hne] at hr
  simp only [Except.ok.injEq, Prod.mk.injEq] at hr
  obtain ⟨hrp, hrh⟩ := hr
  subst hrp; subst hrh
  refine ⟨rfl, rfl, ?_, ?_, rfl, ?_⟩
  · simp
  · simp [List.map_map, Function.comp, dispatchResultOf_token]
  · exact length_filterMap_historyOf transport req devices

/-- C3 (amended): a device whose stored environment tag is neither
sandbox nor production yields a single failed DispatchResult for that
device whose error message is exactly "Invalid environment in
database", and the remaining devices are still processed. -/
theorem invalid_environment_failed_result
    (transport : String → Environment → Except String String)
    (hist_db : HistoryRecord → Except String Unit) (req : SendRequest)
    (pre post : List (String × String)) (tok env : String)
    (resp : SendResponse) (hist : List HistoryRecord)
    (h1 : env ≠ "sandbox") (h2 : env ≠ "production")
    (hr : broadcast transport hist_db req (pre ++ (tok, env) :: post) = .ok (resp, hist)) :
    resp.results[pre.length]? = some { device_token := tok, success := false, apns_id := none, error := some "Invalid environment in database" } ∧
    resp.results.length = pre.length + 1 + post.length ∧
    resp.results.map (fun r => r.device_token) =
      (pre ++ (tok, env) :: post).map (fun d => d.1) := by
  have hne : pre ++ (tok, env) :: post ≠ [] := by simp
  rw [broadcast_ok transport hist_db req _ hne] at hr
  simp only [Except.ok.injEq, Prod.mk.injEq] at hr
  obtain ⟨hrp, hrh⟩ := hr
  subst hrp; subst hrh
  refine ⟨?_, ?_, ?_⟩
  · simp only [List.map_append, List.map_cons]
    rw [List.getElem?_append_right (by simp)]
    simp [dispatchResultOf, Environment.try_from, h1, h2]
  · simp only [List.length_map, List.length_append, List.length_cons]
    omega
  · simp [List.map_map, Function.comp_def, dispatchResultOf_token]

/-- C7: every successful send requests exactly one history record
carrying the device token, the provider-assigned id, the title, the
body and the serialized custom-data, and the outcome of the
best-effort history write never changes the broadcast outcome. -/
theorem history_write_best_effort
    (transport : String → Environment → Except String String)
    (hist_db : HistoryRecord → Except String Unit) (req : SendRequest)
    (devices : List (String × String)) (resp : SendResponse) (hist : List HistoryRecord)
    (hr : broadcast transport hist_db req devices = .ok (resp, hist)) :
    (∀ h ∈ hist, h.title = req.title ∧ h.body = req.body ∧ h.payload = payload_json req) ∧
    hist.map (fun h => (h.device_token, some h.apns_id)) =
      (resp.results.filter (fun r => r.success)).map (fun r => (r.device_token, r.apns_id)) ∧
    (∀ db2 : HistoryRecord → Except String Unit,
      broadcast transport db2 req devices = broadcast transport hist_db req devices) := by
  cases devices with
  | nil => exact absurd hr (by simp [broadcast])
  | cons d ds =>
    rw [broadcast_ok transport hist_db req (d :: ds) (by simp)] at hr
    simp only [Except.ok.injEq, Prod.mk.injEq] at hr
    obtain ⟨hrp, hrh⟩ := hr
    subst hrp; subst hrh
    refine ⟨?_, ?_, ?_⟩
    · intro h hmem
      rw [List.mem_filterMap] at hmem
      obtain ⟨dev, _, hdev⟩ := hmem
      exact historyOf_fields transport req dev h hdev
    · exact historyOf_matches transport req (d :: ds)
    · intro db2
      rw [broadcast_ok transport db2 req (d :: ds) (by simp),
        broadcast_ok transport hist_db req (d :: ds) (by simp)]

/-- C8: every custom-data key appears in the serialized payload as a
top-level key, a sibling of the aps envelope entry, and the envelope
entry itself never depends on the custom-data, so custom data is never
nested inside it. -/
theorem custom_data_top_level (req : SendRequest) (d : List (String × Json))
    (k : String) (v : Json) (hd : req.data = some d) (hk : (k, v) ∈ btreeOfList d) :
    (k, v) ∈ (customPayloadJson req).topEntries ∧
    (customPayloadJson req).topEntries.head? =
      some ("aps", (build_custom_aps req).toJson) ∧
    (∀ d2 : Option (List (String × Json)),
      jsonLookup "aps" (customPayloadJson { req with data := d2 }) =
        some ((build_custom_aps req).toJson)) := by
  refine ⟨?_, rfl, ?_⟩
  · simp only [customPayloadJson, Json.topEntries, hd, Option.getD_some]
    exact List.mem_cons_of_mem _ hk
  · intro d2
    simp [customPayloadJson, jsonLookup, Json.topEntries, entriesLookup]
    rfl

/-- A concrete request with every optional field absent. -/
def sampleReq : SendRequest where
  title := none
  subtitle := none
  body := none
  launch_image := none
  title_loc_key := none
  title_loc_args := none
  loc_key := none
  loc_args := none
  badge := none
  sound := none
  content_available := none
  mutable_content := none
  category := none
  interruption_level := none
  relevance_score := none
  priority := none
  collapse_id := none
  expiration := none
  data := none

/-- A concrete transport that fails for the token "d3" and succeeds
for every other token. -/
def sampleTransport : String → Environment → Except String String :=
  fun tok _ => if tok = "d3" then .error "boom" else .ok "apns-1"

/-- A concrete history sink that always succeeds. -/
def sampleDb : HistoryRecord → Except String Unit := fun _ => .ok ()

/-- Three concrete enumerated devices. -/
def sampleDevices : List (String × String) :=
  [("d1", "sandbox"), ("d2", "production"), ("d3", "sandbox")]

def sampleRes1 : DeviceSendResult :=
  { device_token := "d1", success := true, apns_id := some "apns-1", error := none }

def sampleRes2 : DeviceSendResult :=
  { device_token := "d2", success := true, apns_id := some "apns-1", error := none }

def sampleRes3 : DeviceSendResult :=
  { device_token := "d3", success := false, apns_id := none, error := some "boom" }

def sampleResp : SendResponse :=
  { success := true, sent := 2, failed := 1, results := [sampleRes1, sampleRes2, sampleRes3] }

def sampleRec1 : HistoryRecord :=
  { device_token := "d1", apns_id := "apns-1", title := none, body := none, payload := some Json.null }

def sampleRec2 : HistoryRecord :=
  { device_token := "d2", apns_id := "apns-1", title := none, body := none, payload := some Json.null }

def sampleHist : List HistoryRecord := [sampleRec1, sampleRec2]

/-- C1 witness: a concrete broadcast over 3 devices with 2 successes
and 1 transport failure gives sent 2, failed 1, 3 ordered results,
overall success and 2 history writes. -/
theorem broadcast_outcome_counts_witness :
    sampleDevices ≠ [] ∧
    broadcast sampleTransport sampleDb sampleReq sampleDevices = .ok (sampleResp, sampleHist) ∧
    (sampleResp.sent = sampleDevices.countP (dispatchOk sampleTransport) ∧
     sampleResp.failed = sampleDevices.countP (fun d => !dispatchOk sampleTransport d) ∧
     sampleResp.results.length = sampleDevices.length ∧
     sampleResp.results.map (fun r => r.device_token) = sampleDevices.map (fun d => d.1) ∧
     sampleResp.success = decide (0 < sampleResp.sent) ∧
     sampleHist.length = sampleResp.sent) :=
  ⟨by decide, rfl,
    broadcast_outcome_counts sampleTransport sampleDb sampleReq sampleDevices
      sampleResp sampleHist (by decide) rfl⟩

def c3InvalidRes : DeviceSendResult :=
  { device_token := "d2", success := false, apns_id := none, error := some "Invalid environment in database" }

def c3Resp : SendResponse :=
  { success := true, sent := 1, failed := 2, results := [sampleRes1, c3InvalidRes, sampleRes3] }

/-- C3 witness: with a concrete device list where the middle device
carries the tag "staging", the middle result is the invalid-environment
failure and the other two devices are still processed. -/
theorem invalid_environment_failed_result_witness :
    ("staging" : String) ≠ "sandbox" ∧ ("staging" : String) ≠ "production" ∧
    broadcast sampleTransport sampleDb sampleReq
      ([("d1", "sandbox")] ++ ("d2", "staging") :: [("d3", "production")]) =
      .ok (c3Resp, [sampleRec1]) ∧
    (c3Resp.results[1]? = some { device_token := "d2", success := false, apns_id := none, error := some "Invalid environment in database" } ∧
     c3Resp.results.length = 3 ∧
     c3Resp.results.map (fun r => r.device_token) =
       ([("d1", "sandbox")] ++ ("d2", "staging") :: [("d3", "production")]).map (fun d => d.1)) :=
  ⟨by decide, by decide, rfl,
    invalid_environment_failed_result sampleTransport sampleDb sampleReq
      [("d1", "sandbox")] [("d3", "production")] "d2" "staging" c3Resp [sampleRec1]
      (by decide) (by decide) rfl⟩

def c3CexRes : DeviceSendResult :=
  { device_token := "d1", success := false, apns_id := none, error := some "Invalid environment in database" }

def c3CexResp : SendResponse :=
  { success := false, sent := 0, failed := 1, results := [c3CexRes] }

/-- C3 counterexample: broadcasting to a single device stored with the
unrecognized tag "staging" records the error message "Invalid
environment in database"; it is not the message "invalid environment"
stated by the claim (that string is only the discarded TryFrom error
value of Environment). -/
theorem invalid_environment_message_cex :
    broadcast sampleTransport sampleDb sampleReq [("d1", "staging")] =
      .ok (c3CexResp, []) ∧
    c3CexResp.results.map (fun r => r.error) = [some "Invalid environment in database"] ∧
    some "Invalid environment in database" ≠ some "invalid environment" :=
  ⟨rfl, rfl, by decide⟩

/-- C7 witness: the two history rows of the concrete broadcast carry
the request fields and correspond to the two successful results, and
the broadcast outcome does not depend on the history sink. -/
theorem history_write_best_effort_witness :
    broadcast sampleTransport sampleDb sampleReq sampleDevices = .ok (sampleResp, sampleHist) ∧
    ((∀ h ∈ sampleHist, h.title = sampleReq.title ∧ h.body = sampleReq.body ∧ h.payload = payload_json sampleReq) ∧
     sampleHist.map (fun h => (h.device_token, some h.apns_id)) =
       (sampleResp.results.filter (fun r => r.success)).map (fun r => (r.device_token, r.apns_id)) ∧
     (∀ db2 : HistoryRecord → Except String Unit,
       broadcast sampleTransport db2 sampleReq sampleDevices =
         broadcast sampleTransport sampleDb sampleReq sampleDevices)) :=
  ⟨rfl, history_write_best_effort sampleTransport sampleDb sampleReq sampleDevices
    sampleResp sampleHist rfl⟩

def c8Data : List (String × Json) := [("key1", Json.str "value1"), ("key2", Json.str "value2")]

def c8Req : SendRequest := { sampleReq with data := some c8Data }

theorem c8Data_btree :
    btreeOfList c8Data = [("key1", Json.str "value1"), ("key2", Json.str "value2")] := rfl

theorem c8Data_mem : ("key1", Json.str "value1") ∈ btreeOfList c8Data := by
  rw [c8Data_btree]
  exact List.Mem.head _

/-- C8 witness: with custom data holding key1 and key2, key1 appears
as a top-level entry of the serialized payload beside the aps entry. -/
theorem custom_data_top_level_witness :
    c8Req.data = some c8Data ∧
    ("key1", Json.str "value1") ∈ btreeOfList c8Data ∧
    (("key1", Json.str "value1") ∈ (customPayloadJson c8Req).topEntries ∧
     (customPayloadJson c8Req).topEntries.head? = some ("aps", (build_custom_aps c8Req).toJson) ∧
     (∀ d2 : Option (List (String × Json)),
       jsonLookup "aps" (customPayloadJson { c8Req with data := d2 }) =
         some ((build_custom_aps c8Req).toJson))) :=
  ⟨rfl, c8Data_mem,
    custom_data_top_level c8Req c8Data "key1" (Json.str "value1") rfl c8Data_mem⟩

def c9Req3 : SendRequest := { sampleReq with priority := some 3 }

def c9Req8 : SendRequest := { sampleReq with priority := some 8 }

def c9Req11 : SendRequest := { sampleReq with priority := some 11 }

/-- C9 witness: priority 3 maps to normal delivery priority, and both
8 and the out-of-declared-range 11 map to high. -/
theorem priority_metadata_mapping_witness :
    (apnsOptions "com.example.app" c9Req3).apns_priority = some Priority.normal ∧
    (apnsOptions "com.example.app" c9Req8).apns_priority = some Priority.high ∧
    (apnsOptions "com.example.app" c9Req11).apns_priority = some Priority.high :=
  ⟨(priority_metadata_mapping "com.example.app" c9Req3 3 rfl).1 (by decide) (by decide),
   (priority_metadata_mapping "com.example.app" c9Req8 8 rfl).2 (by decide),
   (priority_metadata_mapping "com.example.app" c9Req11 11 rfl).2 (by decide)⟩
